import Mathlib

/-!
Verification of `fmriprep/workflows/bold/resampling.py` (resampling workflows).

The development shallowly embeds the data paths of the workflow-construction
functions in that file: small pure helper functions are translated directly,
nipype utility nodes (`niu.Merge`, `KeySelect`) and FSL maths nodes
(`-thr`, `-bin`, `-div`, threshold/binarise/divide conventions) are embedded
through their documented input/output contracts, and workflow wiring is
embedded either as explicit composed calls or as an edge list evaluated
symbolically.  Image intensities and statistics are modelled as rationals.
-/

namespace Resampling

/-! ## nipype `niu.Merge` (vstack, flattening) -/

/-- A value fed into one `in<n>` slot of a `niu.Merge` node: it may be left
undefined (the slot is skipped), hold a scalar (appended), or hold a list
(extended into the output). -/
inductive MVal (α : Type) where
  | undef : MVal α
  | one (x : α) : MVal α
  | many (xs : List α) : MVal α
  deriving DecidableEq, Repr

/-- `niu.Merge` with `axis='vstack'` and flattening: iterate the input slots in
order, skip undefined ones, extend list values and append scalar values. -/
def mergeVstack {α : Type} : List (MVal α) → List α
  | [] => []
  | MVal.undef :: rest => mergeVstack rest
  | MVal.one x :: rest => x :: mergeVstack rest
  | MVal.many xs :: rest => xs ++ mergeVstack rest

/-- `MVal` of an optional (possibly undefined) scalar input. -/
def mvalOfOption {α : Type} : Option α → MVal α
  | none => MVal.undef
  | some x => MVal.one x

/-- A Python value that is either a plain scalar or a list. -/
inductive PyVal (α : Type) where
  | scalar (x : α) : PyVal α
  | list (xs : List α) : PyVal α
  deriving DecidableEq, Repr

/-- `_aslist`: wrap a non-list value in a singleton list, pass lists through. -/
def _aslist {α : Type} : PyVal α → List α
  | PyVal.scalar x => [x]
  | PyVal.list xs => xs

/-! ## Goodvoxels estimator: threshold formulas (`init_goodvoxels_bold_mask_wf`) -/

/-- `merge_mod_ribbon_stats`: a `niu.Merge(2)` node whose `in1` receives the
ribbon mean of the modulated normalized COV (`mod_ribbon_mean`) and whose
`in2` receives the ribbon standard deviation (`mod_ribbon_std`). -/
def merge_mod_ribbon_stats (mod_mean mod_std : ℚ) : List ℚ :=
  mergeVstack [MVal.one mod_mean, MVal.one mod_std]

/-- `_calc_upper_thr`: `in_stats[0] + (in_stats[1] * 0.5)`; indexing a list of
fewer than two elements is a Python `IndexError`, modelled as `none`. -/
def _calc_upper_thr (in_stats : List ℚ) : Option ℚ :=
  match in_stats with
  | a :: b :: _ => some (a + b * (1 / 2))
  | _ => none

/-- `_calc_lower_thr`: `in_stats[1] - (in_stats[0] * 0.5)`. -/
def _calc_lower_thr (in_stats : List ℚ) : Option ℚ :=
  match in_stats with
  | a :: b :: _ => some (b - a * (1 / 2))
  | _ => none

/-- The `upper_thr_val` node output given the two ribbon statistics. -/
def upper_thr_val (mod_mean mod_std : ℚ) : Option ℚ :=
  _calc_upper_thr (merge_mod_ribbon_stats mod_mean mod_std)

/-- The `lower_thr_val` node output given the two ribbon statistics. -/
def lower_thr_val (mod_mean mod_std : ℚ) : Option ℚ :=
  _calc_lower_thr (merge_mod_ribbon_stats mod_mean mod_std)

/-! ## FSL maths voxelwise operators -/

/-- `fslmaths -thr t`: zero every voxel whose value is below `t`. -/
def fslThr (t v : ℚ) : ℚ := if v < t then 0 else v

/-- `fslmaths -bin`: binarise, `1` where the value is positive, else `0`. -/
def fslBin (v : ℚ) : ℚ := if 0 < v then 1 else 0

/-- `fslmaths -div`: elementwise division, with FSL's convention that division
by a zero divisor yields `0`. -/
def fslDiv (num den : ℚ) : ℚ := if den = 0 then 0 else num / den

/-- `cov_volume` node: `fsl.maths.BinaryMaths(operation='div')` computing the
coefficient-of-variation volume, voxelwise `stdev / mean` with the FSL
zero-divisor convention. -/
def cov_volume_val (s m : ℚ) : ℚ := fslDiv s m

/-- `goodvoxels_thr` followed by `goodvoxels_mask`
(`-bin -sub <bin mean volume> -mul -1`) at one voxel: threshold the modulated
normalized COV at `upper`, binarise, subtract the binarised temporal mean and
negate.  The voxel is kept (value `1`) exactly when the mean is positive and
the modulated COV does not reach the upper bound. -/
def goodvoxels_mask_val (upper covmod meanv : ℚ) : ℚ :=
  (fslBin (fslThr upper covmod) - fslBin meanv) * (-1)

/-- The `goodvoxels_mask` volume: voxelwise application over the modulated
normalized COV volume and the temporal mean volume. -/
def goodvoxels_mask_vol (upper : ℚ) (covmod meanv : List ℚ) : List ℚ :=
  List.zipWith (goodvoxels_mask_val upper) covmod meanv

/-! ## Negative-value clipping (`threshold` nodes) -/

/-- Modelled from the spec: the `Clip` interface
(`fmriprep.interfaces.maths`, not under `src/`) clamps every value below
`minimum` up to `minimum`; with `minimum=0` it clips the negative
post-interpolation undershoots to zero. -/
def clip (minimum v : ℚ) : ℚ := max v minimum

/-- The `threshold` MapNode of `init_bold_std_trans_wf`
(`Clip(minimum=0)` over each resampled volume). -/
def std_threshold (out_files : List (List ℚ)) : List (List ℚ) :=
  out_files.map (List.map (clip 0))

/-- The `threshold` MapNode of `init_bold_preproc_trans_wf`
(`Clip(minimum=0)` over each resampled volume). -/
def preproc_threshold (out_files : List (List ℚ)) : List (List ℚ) :=
  out_files.map (List.map (clip 0))

/-! ## Template / resolution selection (`_select_template`) -/

/-- A resolution value found in a template spec: the string `"native"` or a
concrete numeric resolution. -/
inductive Res where
  | native : Res
  | num (n : ℕ) : Res
  deriving DecidableEq, Repr

/-- The `res` / `resolution` entries of a template spec dictionary (either may
be absent). -/
structure TplSpec where
  res : Option Res := none
  resolution : Option Res := none
  deriving DecidableEq, Repr

/-- `specs.pop("res", None) or specs.pop("resolution", None) or "native"`:
the `res` key wins when present, then `resolution`, defaulting to native. -/
def effectiveRes (s : TplSpec) : Res :=
  match s.res with
  | some r => r
  | none =>
    match s.resolution with
    | some r => r
    | none => Res.native

/-- `_select_template`, abstracted over the template-resolution collaborator
`avail` (`get_template_specs` restricted to one template): `avail n` is the
reference image found at resolution `n`, or `none` when the lookup raises.
With a concrete requested resolution the single lookup's outcome is returned
as is; with a native/unspecified resolution the lookup is retried at
resolution 2 and, if that raises, at resolution 1. -/
def _select_template (avail : ℕ → Option String) (spec : TplSpec) : Option String :=
  match effectiveRes spec with
  | Res.num n => avail n
  | Res.native =>
    match avail 2 with
    | some out => some out
    | none => avail 1

/-! ## `KeySelect` and the grayordinates assembler (`init_bold_grayords_wf`) -/

/-- `KeySelect` (niworkflows contract): find the position of `key` in the
synchronized `keys` list and return the value at the same position; absence
of the key or a too-short value list raises, modelled as `none`. -/
def keySelect {α : Type} (key : String) : List String → List α → Option α
  | [], _ => none
  | _ :: _, [] => none
  | k :: ks, v :: vs => if k = key then some v else keySelect key ks vs

/-- The grayordinate density parameter (`ty.Literal['91k', '170k']`). -/
inductive GrayordDensity where
  | d91k : GrayordDensity
  | d170k : GrayordDensity
  deriving DecidableEq, Repr

/-- `mni_density = "2" if grayord_density == "91k" else "1"`. -/
def mni_density : GrayordDensity → String
  | GrayordDensity.d91k => "2"
  | GrayordDensity.d170k => "1"

/-- The fixed key of the `select_std` node of `init_bold_grayords_wf`:
`"MNI152NLin6Asym_res-%s" % mni_density`. -/
def grayordsKey (d : GrayordDensity) : String :=
  "MNI152NLin6Asym_res-" ++ mni_density d

/-- The `select_std` node of `init_bold_grayords_wf`: select from the
space-indexed standard-space outputs (`bold_std` keyed by
`spatial_reference`) the entry matching the density-dependent key. -/
def grayords_select_std {α : Type} (d : GrayordDensity)
    (spatial_reference : List String) (bold_std : List α) : Option α :=
  keySelect (grayordsKey d) spatial_reference bold_std

/-! ## Resampling calls: transform assembly -/

/-- One invocation of the external resampling operator
(`MultiApplyTransforms`): the split BOLD series, a reference image, the
ordered transform list and the interpolation kind.  Each workflow constructs
exactly one such node for its series. -/
structure ResampleCall (α β : Type) where
  input_image : List β
  reference_image : Option β
  transforms : List α
  interpolation : String
  deriving DecidableEq, Repr

/-- `merge_xforms` of `init_bold_std_trans_wf`: a `niu.Merge(4)` whose slots
receive, in order, `in1 ← select_std.anat2std_xfm`,
`in2 ← _aslist(itk_bold_to_t1)`, `in3 ← fieldwarp` (possibly undefined),
`in4 ← hmc_xforms`. -/
def std_merge_xforms {α : Type} (anat2std_xfm : α) (itk_bold_to_t1 : PyVal α)
    (fieldwarp : Option α) (hmc_xforms : List α) : List α :=
  mergeVstack
    [MVal.one anat2std_xfm,
     MVal.many (_aslist itk_bold_to_t1),
     mvalOfOption fieldwarp,
     MVal.many hmc_xforms]

/-- The single `bold_to_std_transform` node of `init_bold_std_trans_wf`:
`MultiApplyTransforms(interpolation="LanczosWindowedSinc")` fed with the split
BOLD series, the generated sampling reference and the merged transform list. -/
def bold_to_std_transform {α β : Type} (bold_split : List β) (gen_ref : Option β)
    (anat2std_xfm : α) (itk_bold_to_t1 : PyVal α) (fieldwarp : Option α)
    (hmc_xforms : List α) : ResampleCall α β :=
  { input_image := bold_split
    reference_image := gen_ref
    transforms := std_merge_xforms anat2std_xfm itk_bold_to_t1 fieldwarp hmc_xforms
    interpolation := "LanczosWindowedSinc" }

/-! ## Native-space resampler (`init_bold_preproc_trans_wf`) -/

/-- The pieces of `init_bold_preproc_trans_wf` that the construction flags can
touch: the transform phrase interpolated into the boilerplate description,
and the resampling call built from the runtime inputs. -/
structure PreprocTransWf (α β : Type) where
  desc_transforms : String
  resample : List β → Option α → List α → ResampleCall α β

/-- `init_bold_preproc_trans_wf`: the `use_fieldwarp` flag selects the
description phrase; the connection list is unconditional — `merge_xforms` is a
`niu.Merge(2)` with `in1 ← fieldwarp` (possibly undefined) and
`in2 ← hmc_xforms`, feeding the single `bold_transform` node whose reference
image is the first input volume (`_first`). -/
def init_bold_preproc_trans_wf {α β : Type} (use_fieldwarp : Bool)
    (interpolation : String := "LanczosWindowedSinc") : PreprocTransWf α β :=
  { desc_transforms :=
      if use_fieldwarp then
        "a single, composite transform to correct for head-motion and susceptibility distortions"
      else
        "the transforms to correct for head-motion"
    resample := fun bold_file fieldwarp hmc_xforms =>
      { input_image := bold_file
        reference_image := bold_file.head?
        transforms := mergeVstack [mvalOfOption fieldwarp, MVal.many hmc_xforms]
        interpolation := interpolation } }

/-! ## fsLR surface resampling (`init_bold_fsLR_resampling_wf`)

The per-hemisphere pipeline is embedded as the workflow's connection list
(one entry per `workflow.connect` edge) together with a symbolic evaluator
that resolves the dataflow expression computed at a node.  The expression
constructors record each interface with its fixed construction parameters. -/

/-- One `workflow.connect` edge: source node and port, destination node and
port. -/
structure Conn where
  src : String
  srcport : String
  dst : String
  dstport : String
  deriving DecidableEq, Repr

/-- Symbolic dataflow value in the fsLR resampling workflow. -/
inductive SExpr where
  | source (node port : String)
  | createROI (hemisphere thickness : SExpr)
  | fillHoles (surface metric : SExpr)
  | removeIslands (surface metric : SExpr)
  | surfaceResample (method : String) (surfaceIn currentSphere newSphere : SExpr)
  | volumeToSurface (method : String) (volume surface inner outer : SExpr)
      (volumeRoi : Option SExpr)
  | metricDilate (distance : ℕ) (nearest : Bool) (inFile surf : SExpr)
  | metricMask (inFile mask : SExpr)
  | metricResample (method : String) (areaSurfs : Bool)
      (inFile currentSphere newSphere currentArea newArea roiMetric : SExpr)

/-- The connection list of `init_bold_fsLR_resampling_wf`, in source order;
when `estimate_goodvoxels` is set the goodvoxels mask is additionally wired
into the `volume_roi` input of `volume_to_surface`. -/
def fsLR_connections (estimate_goodvoxels : Bool) : List Conn :=
  [⟨"inputnode", "surfaces", "select_surfaces", "surfaces"⟩,
   ⟨"inputnode", "morphometrics", "select_surfaces", "morphometrics"⟩,
   ⟨"inputnode", "sphere_reg_fsLR", "select_surfaces", "spherical_registrations"⟩,
   ⟨"itersource", "hemi", "select_surfaces", "hemi"⟩,
   ⟨"itersource", "hemi", "initial_roi", "hemisphere"⟩,
   ⟨"select_surfaces", "thickness", "initial_roi", "thickness_file"⟩,
   ⟨"select_surfaces", "midthickness", "fill_holes", "surface_file"⟩,
   ⟨"select_surfaces", "midthickness", "native_roi", "surface_file"⟩,
   ⟨"initial_roi", "roi_file", "fill_holes", "metric_file"⟩,
   ⟨"fill_holes", "out_file", "native_roi", "metric_file"⟩,
   ⟨"select_surfaces", "midthickness", "downsampled_midthickness", "surface_in"⟩,
   ⟨"select_surfaces", "sphere_reg", "downsampled_midthickness", "current_sphere"⟩,
   ⟨"select_surfaces", "template_sphere", "downsampled_midthickness", "new_sphere"⟩,
   ⟨"inputnode", "bold_file", "volume_to_surface", "volume_file"⟩,
   ⟨"select_surfaces", "midthickness", "volume_to_surface", "surface_file"⟩,
   ⟨"select_surfaces", "white", "volume_to_surface", "inner_surface"⟩,
   ⟨"select_surfaces", "pial", "volume_to_surface", "outer_surface"⟩,
   ⟨"select_surfaces", "midthickness", "metric_dilate", "surf_file"⟩,
   ⟨"volume_to_surface", "out_file", "metric_dilate", "in_file"⟩,
   ⟨"native_roi", "out_file", "mask_native", "mask"⟩,
   ⟨"metric_dilate", "out_file", "mask_native", "in_file"⟩,
   ⟨"select_surfaces", "sphere_reg", "resample_to_fsLR", "current_sphere"⟩,
   ⟨"select_surfaces", "template_sphere", "resample_to_fsLR", "new_sphere"⟩,
   ⟨"select_surfaces", "midthickness", "resample_to_fsLR", "current_area"⟩,
   ⟨"downsampled_midthickness", "surface_out", "resample_to_fsLR", "new_area"⟩,
   ⟨"native_roi", "out_file", "resample_to_fsLR", "roi_metric"⟩,
   ⟨"mask_native", "out_file", "resample_to_fsLR", "in_file"⟩,
   ⟨"select_surfaces", "template_roi", "mask_fsLR", "mask"⟩,
   ⟨"resample_to_fsLR", "out_file", "mask_fsLR", "in_file"⟩,
   ⟨"mask_fsLR", "out_file", "joinnode", "bold_fsLR"⟩] ++
  (if estimate_goodvoxels then
    [⟨"goodvoxels_bold_mask_wf", "outputnode.goodvoxels_mask",
      "volume_to_surface", "volume_roi"⟩]
   else [])

/-- Nodes whose outputs are workflow inputs for the purposes of the
per-hemisphere pipeline (identity/selector nodes and the optional goodvoxels
subworkflow). -/
def isSourceNode (n : String) : Bool :=
  n == "inputnode" || n == "itersource" || n == "select_surfaces" ||
    n == "goodvoxels_bold_mask_wf"

/-- Find the connection feeding a given destination node and port. -/
def findSrc (cs : List Conn) (node port : String) : Option (String × String) :=
  (cs.find? (fun c => c.dst == node && c.dstport == port)).map
    (fun c => (c.src, c.srcport))

/-- Evaluate the symbolic expression computed at a node of the fsLR
resampling workflow, following connections backwards (fuel-bounded).  Each
branch instantiates the node's interface with the construction parameters
fixed in the source (`MetricDilate(distance=10, nearest=True)`,
`SurfaceResample(method='BARYCENTRIC')`,
`VolumeToSurfaceMapping(method="ribbon-constrained")`,
`MetricResample(method='ADAP_BARY_AREA', area_surfs=True)`). -/
def evalNode (cs : List Conn) : ℕ → String → Option SExpr
  | 0, _ => none
  | fuel + 1, node =>
    let inp := fun port =>
      match findSrc cs node port with
      | none => none
      | some (src, sport) =>
        if isSourceNode src then some (SExpr.source src sport)
        else evalNode cs fuel src
    if node == "initial_roi" then do
      let h ← inp "hemisphere"
      let t ← inp "thickness_file"
      pure (SExpr.createROI h t)
    else if node == "fill_holes" then do
      let s ← inp "surface_file"
      let m ← inp "metric_file"
      pure (SExpr.fillHoles s m)
    else if node == "native_roi" then do
      let s ← inp "surface_file"
      let m ← inp "metric_file"
      pure (SExpr.removeIslands s m)
    else if node == "downsampled_midthickness" then do
      let s ← inp "surface_in"
      let c ← inp "current_sphere"
      let n ← inp "new_sphere"
      pure (SExpr.surfaceResample "BARYCENTRIC" s c n)
    else if node == "volume_to_surface" then do
      let v ← inp "volume_file"
      let s ← inp "surface_file"
      let i ← inp "inner_surface"
      let o ← inp "outer_surface"
      pure (SExpr.volumeToSurface "ribbon-constrained" v s i o (inp "volume_roi"))
    else if node == "metric_dilate" then do
      let f ← inp "in_file"
      let s ← inp "surf_file"
      pure (SExpr.metricDilate 10 true f s)
    else if node == "mask_native" then do
      let f ← inp "in_file"
      let m ← inp "mask"
      pure (SExpr.metricMask f m)
    else if node == "resample_to_fsLR" then do
      let f ← inp "in_file"
      let c ← inp "current_sphere"
      let n ← inp "new_sphere"
      let ca ← inp "current_area"
      let na ← inp "new_area"
      let r ← inp "roi_metric"
      pure (SExpr.metricResample "ADAP_BARY_AREA" true f c n ca na r)
    else if node == "mask_fsLR" then do
      let f ← inp "in_file"
      let m ← inp "mask"
      pure (SExpr.metricMask f m)
    else none

/-- The native cortex ROI of the fsLR pipeline: thickness-derived initial ROI,
holes filled and islands removed on the native midthickness geometry. -/
def nativeRoiExpr : SExpr :=
  SExpr.removeIslands (SExpr.source "select_surfaces" "midthickness")
    (SExpr.fillHoles (SExpr.source "select_surfaces" "midthickness")
      (SExpr.createROI (SExpr.source "itersource" "hemi")
        (SExpr.source "select_surfaces" "thickness")))

/-! ## Standard-space fan-out/fan-in (`init_bold_std_trans_wf`) -/

/-- The per-space outputs collected by the parametric `poutputnode` of
`init_bold_std_trans_wf` (the five lists the claim is about; the
freesurfer/multiecho extras are optional additions to the same record). -/
structure BranchOut (α : Type) where
  bold_std : α
  bold_std_ref : α
  bold_mask_std : α
  spatial_reference : α
  template : α
  deriving DecidableEq, Repr

/-- Find, among the completed fan-out branches (tagged by their originating
iterable index), the result of branch `i`. -/
def lookupIdx {β : Type} (i : ℕ) : List (ℕ × β) → Option β
  | [] => none
  | (j, b) :: rest => if j = i then some b else lookupIdx i rest

/-- Collect branch results for indices `i, i+1, …, i+k-1`, in that order. -/
def collectFrom {β : Type} (completed : List (ℕ × β)) : ℕ → ℕ → Option (List β)
  | _, 0 => some []
  | i, k + 1 => do
    let b ← lookupIdx i completed
    let rest ← collectFrom completed (i + 1) k
    pure (b :: rest)

/-- Modelled from the spec: the join primitive of the workflow executor
(nipype `JoinNode` with `joinsource="iterablesource"`, executor machinery not
under `src/`) re-collects the per-branch outputs keyed by their originating
fan-out parameter index, in the original request order `0, …, n-1`,
independent of the order in which branches completed. -/
def joinCollect {β : Type} (completed : List (ℕ × β)) (n : ℕ) : Option (List β) :=
  collectFrom completed 0 n

theorem lookupIdx_eq_of_mem {β : Type} {l : List (ℕ × β)} {i : ℕ} {b : β}
    (hmem : (i, b) ∈ l) (hnd : (l.map Prod.fst).Nodup) : lookupIdx i l = some b := by
  induction l with
  | nil => cases hmem
  | cons hd tl ih =>
    obtain ⟨j, c⟩ := hd
    simp only [List.map_cons, List.nodup_cons] at hnd
    rcases List.mem_cons.mp hmem with heq | htl
    · have hpair : i = j ∧ b = c := by simpa using heq
      obtain ⟨rfl, rfl⟩ := hpair
      simp [lookupIdx]
    · have hji : j ≠ i := by
        rintro rfl
        exact hnd.1 (List.mem_map.mpr ⟨(j, b), htl, rfl⟩)
      simp only [lookupIdx, if_neg hji]
      exact ih htl hnd.2

theorem collectFrom_zero {β : Type} (c : List (ℕ × β)) (i : ℕ) :
    collectFrom c i 0 = some [] := rfl

theorem collectFrom_succ {β : Type} (c : List (ℕ × β)) (i k : ℕ) :
    collectFrom c i (k + 1) =
      (lookupIdx i c).bind (fun b =>
        (collectFrom c (i + 1) k).bind (fun rest => some (b :: rest))) := rfl

theorem collectFrom_eq_drop {β : Type} (completed : List (ℕ × β)) (l : List β) :
    ∀ (k i : ℕ), i + k = l.length →
      (∀ j : ℕ, i ≤ j → j < l.length → lookupIdx j completed = l.get? j) →
      collectFrom completed i k = some (l.drop i) := by
  intro k
  induction k with
  | zero =>
    intro i hi _
    rw [collectFrom_zero, List.drop_eq_nil_of_le (by omega)]
  | succ k ih =>
    intro i hi hlook
    have hilt : i < l.length := by omega
    have h0 : lookupIdx i completed = l.get? i := hlook i le_rfl hilt
    have hget : l.get? i = some (l.get ⟨i, hilt⟩) := List.get?_eq_get hilt
    have hrest : collectFrom completed (i + 1) k = some (l.drop (i + 1)) :=
      ih (i + 1) (by omega) (fun j hj hjl => hlook j (by omega) hjl)
    have hdrop : l.drop i = l.get ⟨i, hilt⟩ :: l.drop (i + 1) := by
      simpa using List.drop_eq_getElem_cons hilt
    rw [collectFrom_succ, h0, hget, Option.some_bind, hrest, Option.some_bind, hdrop]

/-- If the completed branches are any permutation of the request-order
branches tagged with their indices, the join reproduces the request-order
list exactly. -/
theorem joinCollect_perm_enum {β : Type} (l : List β) (completed : List (ℕ × β))
    (h : completed.Perm l.enum) : joinCollect completed l.length = some l := by
  have hnd : (completed.map Prod.fst).Nodup := by
    have hp : (completed.map Prod.fst).Perm (l.enum.map Prod.fst) := h.map Prod.fst
    rw [List.enum_map_fst] at hp
    exact hp.nodup_iff.mpr (List.nodup_range l.length)
  have hlook : ∀ j : ℕ, j < l.length → lookupIdx j completed = l.get? j := by
    intro j hj
    have hget : l.get? j = some (l.get ⟨j, hj⟩) := List.get?_eq_get hj
    have henum : l.enum.get? j = some (j, l.get ⟨j, hj⟩) := by
      rw [List.get?_enum, hget]
      rfl
    have hmem : (j, l.get ⟨j, hj⟩) ∈ completed :=
      h.mem_iff.mpr (List.get?_mem henum)
    rw [hget]
    exact lookupIdx_eq_of_mem hmem hnd
  have := collectFrom_eq_drop completed l l.length 0 (by omega)
    (fun j _ hjl => hlook j hjl)
  simpa [joinCollect] using this

/-! ## Concrete instances used by witness theorems -/

/-- A template-resolution collaborator offering resolutions 1 and 2 only. -/
def availEx (n : ℕ) : Option String :=
  if n = 1 ∨ n = 2 then some "tpl_res" else none

/-- A template-resolution collaborator offering resolution 1 only. -/
def availOnly1 (n : ℕ) : Option String :=
  if n = 1 then some "tpl_res1" else none

/-- A concrete per-space branch computation for the join witness. -/
def branchEx (s : String) : BranchOut String :=
  { bold_std := s ++ "_bold"
    bold_std_ref := s ++ "_ref"
    bold_mask_std := s ++ "_mask"
    spatial_reference := s
    template := s }

/-- A concrete request list for the join witness. -/
def spacesEx : List String := ["MNI152Lin", "MNI152NLin6Asym"]

/-- The branch results of `spacesEx` completed in reverse order. -/
def completedEx : List (ℕ × BranchOut String) :=
  [(1, branchEx "MNI152NLin6Asym"), (0, branchEx "MNI152Lin")]

/-! ## Helper lemmas -/

theorem keySelect_eq_none_iff {α : Type} (key : String) :
    ∀ (ks : List String) (vs : List α), vs.length = ks.length →
      (keySelect key ks vs = none ↔ key ∉ ks) := by
  intro ks
  induction ks with
  | nil => intro vs _; simp [keySelect]
  | cons k ks ih =>
    intro vs hlen
    cases vs with
    | nil => simp at hlen
    | cons v vs =>
      simp only [List.length_cons, Nat.add_right_cancel_iff] at hlen
      by_cases hk : k = key
      · subst hk
        simp [keySelect]
      · simp only [keySelect, if_neg hk]
        rw [ih vs hlen]
        simp [hk, List.mem_cons, Ne.symm hk]

theorem keySelect_some_spec {α : Type} (key : String) :
    ∀ (ks : List String) (vs : List α) (v : α), keySelect key ks vs = some v →
      ∃ i : ℕ, ks.get? i = some key ∧ vs.get? i = some v := by
  intro ks
  induction ks with
  | nil => intro vs v h; simp [keySelect] at h
  | cons k ks ih =>
    intro vs v h
    cases vs with
    | nil => simp [keySelect] at h
    | cons w vs =>
      by_cases hk : k = key
      · subst hk
        simp [keySelect] at h
        exact ⟨0, rfl, by simp [h]⟩
      · simp only [keySelect, if_neg hk] at h
        obtain ⟨i, hki, hvi⟩ := ih vs v h
        exact ⟨i + 1, by simpa using hki, by simpa using hvi⟩

theorem goodvoxels_mask_val_mono {u u' c m : ℚ} (h : u ≤ u')
    (hk : goodvoxels_mask_val u c m = 1) : goodvoxels_mask_val u' c m = 1 := by
  unfold goodvoxels_mask_val fslBin fslThr at hk ⊢
  split_ifs at hk ⊢ <;> norm_num at hk ⊢ <;> linarith

/-! ## Claim theorems -/

/-- **C2**: in the goodvoxels estimator, given the ribbon statistics pair
`(mod_mean, mod_std)` of the modulated normalized COV volume, the computed
upper threshold equals `mod_mean + 0.5*mod_std` and the computed lower
threshold equals `mod_std - 0.5*mod_mean` (the asymmetric legacy formula,
with std and mean swapped in the lower bound relative to the upper). -/
theorem goodvoxels_threshold_formulas (mod_mean mod_std : ℚ) :
    upper_thr_val mod_mean mod_std = some (mod_mean + (1 / 2) * mod_std) ∧
    lower_thr_val mod_mean mod_std = some (mod_std - (1 / 2) * mod_mean) := by
  constructor
  · show some (mod_mean + mod_std * (1 / 2)) = _
    rw [mul_comm]
  · show some (mod_std - mod_mean * (1 / 2)) = _
    rw [mul_comm]

/-- **C9**: the coefficient-of-variation division `COV = S / M` is guarded:
the division node is a total function, a voxel with zero temporal mean
deterministically receives `COV = 0` (the FSL zero-divisor convention), and
every other voxel receives the ordinary quotient — no error is surfaced. -/
theorem cov_division_guarded :
    (∀ s : ℚ, cov_volume_val s 0 = 0) ∧
    (∀ s m : ℚ, m ≠ 0 → cov_volume_val s m = s / m) := by
  constructor
  · intro s
    simp [cov_volume_val, fslDiv]
  · intro s m hm
    simp [cov_volume_val, fslDiv, hm]

/-- Witness for `cov_division_guarded` at concrete voxels. -/
theorem cov_division_guarded_witness :
    cov_volume_val 3 2 = 3 / 2 ∧ cov_volume_val 5 0 = 0 :=
  ⟨cov_division_guarded.2 3 2 (by norm_num), cov_division_guarded.1 5⟩

/-- **C3**: for every requested standard space, the transform list handed to
the single `bold_to_std_transform` resampling call is exactly the selected
anatomical-to-standard transform, then the BOLD-to-T1 affine, then the
distortion-correction fieldwarp when present, then the per-volume
motion-correction transforms — one chain, one resampling pass with
Lanczos-windowed-sinc interpolation. -/
theorem std_transform_chain {α β : Type} (bold_split : List β) (gen_ref : Option β)
    (anat2std_xfm affine : α) (fieldwarp : Option α) (hmc_xforms : List α) :
    (bold_to_std_transform bold_split gen_ref anat2std_xfm (PyVal.scalar affine)
        fieldwarp hmc_xforms).transforms =
      anat2std_xfm :: affine :: (fieldwarp.toList ++ hmc_xforms) ∧
    (bold_to_std_transform bold_split gen_ref anat2std_xfm (PyVal.scalar affine)
        fieldwarp hmc_xforms).interpolation = "LanczosWindowedSinc" := by
  constructor
  · cases fieldwarp <;>
      simp [bold_to_std_transform, std_merge_xforms, mergeVstack, _aslist, mvalOfOption]
  · rfl

/-- **C4**: every volumetric resampling output is clipped at zero after
interpolation: both the standard-space and native-space `threshold` stages
map the series `{-0.3, -0.0001, 0, 5}` to `{0, 0, 0, 5}`, and pass
non-negative series through unchanged. -/
theorem negative_value_clipping :
    std_threshold [[-3/10, -1/10000, 0, 5]] = [[0, 0, 0, 5]] ∧
    preproc_threshold [[-3/10, -1/10000, 0, 5]] = [[0, 0, 0, 5]] ∧
    ∀ out_files : List (List ℚ), (∀ vol ∈ out_files, ∀ v ∈ vol, 0 ≤ v) →
      std_threshold out_files = out_files ∧ preproc_threshold out_files = out_files := by
  have hconc : std_threshold [[-3/10, -1/10000, 0, 5]] = [[0, 0, 0, 5]] := by
    simp only [std_threshold, List.map_cons, List.map_nil, clip]
    norm_num
  refine ⟨hconc, hconc, ?_⟩
  intro out_files h
  have hvol : ∀ vol ∈ out_files, List.map (clip 0) vol = vol := by
    intro vol hv
    have h1 : ∀ v ∈ vol, clip 0 v = v := fun v hx => max_eq_left (h vol hv v hx)
    calc vol.map (clip 0) = vol.map id := List.map_congr_left h1
      _ = vol := vol.map_id
  have hall : out_files.map (List.map (clip 0)) = out_files := by
    calc out_files.map (List.map (clip 0)) = out_files.map id := List.map_congr_left hvol
      _ = out_files := out_files.map_id
  exact ⟨hall, hall⟩

/-- Witness for `negative_value_clipping` on an all-non-negative series. -/
theorem negative_value_clipping_witness :
    std_threshold [[(1 : ℚ), 2]] = [[1, 2]] ∧ preproc_threshold [[(1 : ℚ), 2]] = [[1, 2]] :=
  negative_value_clipping.2.2 [[1, 2]] (by norm_num)

/-- **C8**: the goodvoxels mask is monotone in the upper threshold — for a
fixed modulated-COV volume and mean volume, every voxel kept (mask value 1)
at a smaller upper bound is kept at any larger upper bound. -/
theorem goodvoxels_mask_monotone (u u' : ℚ) (h : u ≤ u')
    (covmod meanv : List ℚ) :
    ∀ i : ℕ, (goodvoxels_mask_vol u covmod meanv).get? i = some 1 →
      (goodvoxels_mask_vol u' covmod meanv).get? i = some 1 := by
  induction covmod generalizing meanv with
  | nil => intro i hk; simp [goodvoxels_mask_vol] at hk
  | cons c cs ih =>
    intro i hk
    cases meanv with
    | nil => simp [goodvoxels_mask_vol] at hk
    | cons m ms =>
      cases i with
      | zero =>
        simp only [goodvoxels_mask_vol, List.zipWith_cons_cons, List.get?] at hk ⊢
        rw [Option.some.injEq] at hk ⊢
        exact goodvoxels_mask_val_mono h hk
      | succ i =>
        simp only [goodvoxels_mask_vol, List.zipWith_cons_cons, List.get?] at hk ⊢
        exact ih ms i hk

/-- Witness for `goodvoxels_mask_monotone`: the voxel kept at bound 1 is kept
at bound 2. -/
theorem goodvoxels_mask_monotone_witness :
    (goodvoxels_mask_vol 2 [(1 : ℚ) / 2] [1]).get? 0 = some 1 :=
  goodvoxels_mask_monotone 1 2 (by norm_num) [(1 : ℚ) / 2] [1] 0
    (by norm_num [goodvoxels_mask_vol, goodvoxels_mask_val, fslBin, fslThr])

/-- **C6 (counterexample)**: the claimed universal first-choice-then-fallback
policy fails on the code.  With a collaborator offering resolutions 1 and 2
and a spec explicitly requesting resolution 3, `_select_template` raises
(returns `none`) immediately, even though alternate resolutions are
available: no fallback is attempted for an explicitly requested resolution. -/
theorem select_template_fallback_counterexample :
    _select_template availEx { res := none, resolution := some (Res.num 3) } = none ∧
    availEx 2 = some "tpl_res" ∧ availEx 1 = some "tpl_res" := by
  refine ⟨rfl, by norm_num [availEx], by norm_num [availEx]⟩

/-- **C6 (amended)**: only when the requested spec carries no concrete
resolution (`res`/`resolution` absent or `"native"`) does template-resolution
selection follow the first-choice-then-fallback policy — resolution 2 is
tried first, resolution 1 is tried when 2 fails, and an error is raised
exactly when both fail; when a concrete resolution is requested, that single
lookup's outcome is returned with no fallback. -/
theorem select_template_fallback (avail : ℕ → Option String) (spec : TplSpec) :
    (effectiveRes spec = Res.native →
      (∀ out, avail 2 = some out → _select_template avail spec = some out) ∧
      (avail 2 = none → _select_template avail spec = avail 1) ∧
      (_select_template avail spec = none ↔ avail 2 = none ∧ avail 1 = none)) ∧
    (∀ n : ℕ, effectiveRes spec = Res.num n → _select_template avail spec = avail n) := by
  constructor
  · intro hnat
    refine ⟨?_, ?_, ?_⟩
    · intro out hout
      simp [_select_template, hnat, hout]
    · intro hnone
      simp [_select_template, hnat, hnone]
    · cases h2 : avail 2 with
      | none => simp [_select_template, hnat, h2]
      | some out => simp [_select_template, hnat, h2]
  · intro n hn
    simp [_select_template, hn]

/-- Witness for `select_template_fallback`: with resolution 2 missing the
native-resolution path falls back to resolution 1, and an explicitly
requested available resolution is used directly. -/
theorem select_template_fallback_witness :
    _select_template availOnly1 { res := some Res.native, resolution := none } =
      availOnly1 1 ∧
    _select_template availEx { res := some (Res.num 1), resolution := none } =
      availEx 1 :=
  ⟨((select_template_fallback availOnly1
      { res := some Res.native, resolution := none }).1 rfl).2.1
      (by norm_num [availOnly1]),
   (select_template_fallback availEx
      { res := some (Res.num 1), resolution := none }).2 1 rfl⟩

/-- **C7**: the grayordinates assembler selects, from the space-indexed
standard-space outputs, exactly the entry whose spatial-reference key equals
`MNI152NLin6Asym` at the density-dependent resolution
(`MNI152NLin6Asym_res-2` for 91k, `MNI152NLin6Asym_res-1` for 170k), and
fails exactly when no stored output carries that key. -/
theorem grayords_subcortical_select {α : Type} :
    grayordsKey GrayordDensity.d91k = "MNI152NLin6Asym_res-2" ∧
    grayordsKey GrayordDensity.d170k = "MNI152NLin6Asym_res-1" ∧
    ∀ (d : GrayordDensity) (spatial_reference : List String) (bold_std : List α),
      bold_std.length = spatial_reference.length →
      (grayords_select_std d spatial_reference bold_std = none ↔
        grayordsKey d ∉ spatial_reference) ∧
      ∀ v, grayords_select_std d spatial_reference bold_std = some v →
        ∃ i : ℕ, spatial_reference.get? i = some (grayordsKey d) ∧
          bold_std.get? i = some v := by
  refine ⟨rfl, rfl, ?_⟩
  intro d sr bs hlen
  exact ⟨keySelect_eq_none_iff (grayordsKey d) sr bs hlen,
    fun v hv => keySelect_some_spec (grayordsKey d) sr bs v hv⟩

/-- Witness for `grayords_subcortical_select`: a stored output under the
matching key is selected; with only a non-matching key it fails. -/
theorem grayords_subcortical_select_witness :
    (grayords_select_std GrayordDensity.d91k ["MNI152NLin6Asym_res-2"]
        ["subcortical_series"] = none ↔
      grayordsKey GrayordDensity.d91k ∉ ["MNI152NLin6Asym_res-2"]) ∧
    ∀ v, grayords_select_std GrayordDensity.d91k ["MNI152NLin6Asym_res-2"]
        ["subcortical_series"] = some v →
      ∃ i : ℕ, (["MNI152NLin6Asym_res-2"] : List String).get? i =
          some (grayordsKey GrayordDensity.d91k) ∧
        (["subcortical_series"] : List String).get? i = some v :=
  grayords_subcortical_select.2.2 GrayordDensity.d91k
    ["MNI152NLin6Asym_res-2"] ["subcortical_series"] rfl

/-- **C10**: the `use_fieldwarp` construction flag of
`init_bold_preproc_trans_wf` affects only the boilerplate description phrase:
for either flag value the resampling call is built identically, with the
transform list assembled as `[fieldwarp, hmc_xforms]` from whatever inputs
are provided. -/
theorem preproc_fieldwarp_flag_desc_only {α β : Type} (b1 b2 : Bool)
    (interp : String) (bold_file : List β) (fieldwarp : Option α)
    (hmc_xforms : List α) :
    ((init_bold_preproc_trans_wf b1 interp : PreprocTransWf α β).resample =
      (init_bold_preproc_trans_wf b2 interp).resample) ∧
    ((init_bold_preproc_trans_wf b1 interp : PreprocTransWf α β).resample
        bold_file fieldwarp hmc_xforms).transforms =
      fieldwarp.toList ++ hmc_xforms := by
  constructor
  · rfl
  · cases fieldwarp <;>
      simp [init_bold_preproc_trans_wf, mergeVstack, mvalOfOption]

/-- **C5**: in the per-hemisphere fsLR pipeline, the projected native-surface
series (ribbon-constrained volume-to-surface mapping, optionally restricted
by the goodvoxels mask) is processed in this fixed stage order: geodesic
dilation by 10mm with nearest-value fill, then masking by the native ROI
(the hole-filled, island-removed thickness ROI on the native midthickness),
then area-adaptive barycentric resampling onto the template mesh using the
native midthickness and the barycentrically downsampled template-density
midthickness as area surfaces, then masking by the fixed template atlas
ROI. -/
theorem fsLR_stage_order (estimate_goodvoxels : Bool) :
    evalNode (fsLR_connections estimate_goodvoxels) 16 "mask_fsLR" =
      some (SExpr.metricMask
        (SExpr.metricResample "ADAP_BARY_AREA" true
          (SExpr.metricMask
            (SExpr.metricDilate 10 true
              (SExpr.volumeToSurface "ribbon-constrained"
                (SExpr.source "inputnode" "bold_file")
                (SExpr.source "select_surfaces" "midthickness")
                (SExpr.source "select_surfaces" "white")
                (SExpr.source "select_surfaces" "pial")
                (if estimate_goodvoxels then
                  some (SExpr.source "goodvoxels_bold_mask_wf"
                    "outputnode.goodvoxels_mask")
                 else none))
              (SExpr.source "select_surfaces" "midthickness"))
            nativeRoiExpr)
          (SExpr.source "select_surfaces" "sphere_reg")
          (SExpr.source "select_surfaces" "template_sphere")
          (SExpr.source "select_surfaces" "midthickness")
          (SExpr.surfaceResample "BARYCENTRIC"
            (SExpr.source "select_surfaces" "midthickness")
            (SExpr.source "select_surfaces" "sphere_reg")
            (SExpr.source "select_surfaces" "template_sphere"))
          nativeRoiExpr)
        (SExpr.source "select_surfaces" "template_roi")) := by
  cases estimate_goodvoxels <;> rfl

/-- **C1**: for every list of `N` requested standard spaces, the joined
output lists of `init_bold_std_trans_wf` (`bold_std`, `bold_std_ref`,
`bold_mask_std`, `spatial_reference`, `template`) each have length `N`, and
the `i`-th element of every list is the corresponding output of the branch
spawned for the `i`-th requested space in original request order — for every
completion order (any permutation of the index-tagged branch results). -/
theorem std_join_correspondence {σ α : Type} (spaces : List σ)
    (branch : σ → BranchOut α) (completed : List (ℕ × BranchOut α))
    (hperm : completed.Perm ((spaces.map branch).enum)) :
    ∃ joined : List (BranchOut α),
      joinCollect completed spaces.length = some joined ∧
      (joined.map BranchOut.bold_std).length = spaces.length ∧
      (joined.map BranchOut.bold_std_ref).length = spaces.length ∧
      (joined.map BranchOut.bold_mask_std).length = spaces.length ∧
      (joined.map BranchOut.spatial_reference).length = spaces.length ∧
      (joined.map BranchOut.template).length = spaces.length ∧
      ∀ i : ℕ,
        (joined.map BranchOut.bold_std).get? i =
          (spaces.get? i).map (fun s => (branch s).bold_std) ∧
        (joined.map BranchOut.bold_std_ref).get? i =
          (spaces.get? i).map (fun s => (branch s).bold_std_ref) ∧
        (joined.map BranchOut.bold_mask_std).get? i =
          (spaces.get? i).map (fun s => (branch s).bold_mask_std) ∧
        (joined.map BranchOut.spatial_reference).get? i =
          (spaces.get? i).map (fun s => (branch s).spatial_reference) ∧
        (joined.map BranchOut.template).get? i =
          (spaces.get? i).map (fun s => (branch s).template) := by
  refine ⟨spaces.map branch, ?_, by simp, by simp, by simp, by simp, by simp, ?_⟩
  · have hjoin := joinCollect_perm_enum (spaces.map branch) completed hperm
    simpa using hjoin
  · intro i
    refine ⟨?_, ?_, ?_, ?_, ?_⟩ <;>
      · simp only [List.get?_map, Option.map_map]
        rfl

/-- Witness for `std_join_correspondence`: two requested spaces whose
branches complete in reverse order are joined back in request order. -/
theorem std_join_correspondence_witness :
    completedEx.Perm ((spacesEx.map branchEx).enum) ∧
    ∃ joined : List (BranchOut String),
      joinCollect completedEx spacesEx.length = some joined ∧
      (joined.map BranchOut.bold_std).length = spacesEx.length ∧
      (joined.map BranchOut.bold_std_ref).length = spacesEx.length ∧
      (joined.map BranchOut.bold_mask_std).length = spacesEx.length ∧
      (joined.map BranchOut.spatial_reference).length = spacesEx.length ∧
      (joined.map BranchOut.template).length = spacesEx.length ∧
      ∀ i : ℕ,
        (joined.map BranchOut.bold_std).get? i =
          (spacesEx.get? i).map (fun s => (branchEx s).bold_std) ∧
        (joined.map BranchOut.bold_std_ref).get? i =
          (spacesEx.get? i).map (fun s => (branchEx s).bold_std_ref) ∧
        (joined.map BranchOut.bold_mask_std).get? i =
          (spacesEx.get? i).map (fun s => (branchEx s).bold_mask_std) ∧
        (joined.map BranchOut.spatial_reference).get? i =
          (spacesEx.get? i).map (fun s => (branchEx s).spatial_reference) ∧
        (joined.map BranchOut.template).get? i =
          (spacesEx.get? i).map (fun s => (branchEx s).template) :=
  ⟨by decide, std_join_correspondence spacesEx branchEx completedEx (by decide)⟩

end Resampling

